import Mathlib

/-!
Shallow embedding of the aar email-screenshot pipeline (Go sources:
main.go, interfaces.go, jmap.go, screenshot.go).

External effects (the JMAP server, the chromedp render engine, the
filesystem) are modelled as oracle records of pure functions, and the
orchestration code additionally records the calls it makes in an explicit
event trace, so that frame/effect claims ("no move call occurs in dry-run
mode") are statable.  Go errors are modelled as Except String; Go maps
used only for lookup are modelled as association lists.
-/

namespace Aar

/-- Single-quote character as a string (used inside error messages). -/
def sq : String := String.singleton (Char.ofNat 39)

/-! ## Data model (jmap.go struct declarations) -/

/-- Mailbox from jmap.go: ID, Name, Role. -/
structure Mailbox where
  id : String
  name : String
  role : String
deriving Repr, DecidableEq

/-- HTMLBodyPart from jmap.go: PartID, Type. -/
structure HTMLBodyPart where
  partID : String
  type : String
deriving Repr, DecidableEq

/-- BodyValue from jmap.go: Value and the IsHTML flag. -/
structure BodyValue where
  value : String
  isHTML : Bool
deriving Repr, DecidableEq

/-- Email from jmap.go.  BodyValues is a Go map keyed by part ID; it is
modelled as an association list (Go map keys are unique, and the code only
ever looks keys up). MailboxIds is likewise a map from mailbox ID to bool. -/
structure Email where
  id : String
  subject : String
  receivedAt : String
  htmlBody : List HTMLBodyPart
  bodyValues : List (String × BodyValue)
  mailboxIds : List (String × Bool)
deriving Repr, DecidableEq

/-- ProcessResult from main.go. -/
structure ProcessResult where
  totalCount : Nat
  processedCount : Nat
  failedCount : Nat
deriving Repr, DecidableEq

/-! ## Constants (main.go) -/

def sourceFolder : String := "_aar"
def archiveFolder : String := "_aar_processed"
def screenshotDir : String := "./screenshots"
def screenshotWidth : Nat := 1280
def screenshotHeight : Nat := 800

/-! ## Interfaces (interfaces.go)

EmailClient is the interface the orchestrator calls; here it is a record
of pure functions standing for one fixed behaviour of the remote server
during the run.  ScreenshotService is the screenshot interface as main.go
actually invokes it: main.go line 136 calls
GenerateScreenshot(emailID, htmlContent) with two arguments, so the
service record takes the first argument (which main.go fills with the
email ID) and the HTML content. -/

structure EmailClient where
  findMailboxByName : String → Except String Mailbox
  getEmailsInMailbox : String → Int → Except String (List String)
  getEmails : List String → Except String (List Email)
  moveEmail : String → String → String → Except String Unit

structure ScreenshotService where
  generateScreenshot : String → String → Except String String

/-- Calls the orchestrator makes against its collaborators, recorded in
order.  queryMailbox records a FindMailboxByName call, listEmails a
GetEmailsInMailbox call, fetch a GetEmails call, render a
GenerateScreenshot call (firstArg is what main.go passes as the first
argument, namely the email ID), move a MoveEmail call. -/
inductive Event where
  | queryMailbox (name : String)
  | listEmails (mailboxID : String) (limit : Int)
  | fetch (ids : List String)
  | render (firstArg : String) (html : String)
  | move (emailID srcID dstID : String)
deriving Repr, DecidableEq

/-- Outcome of one loop iteration of processEmails: exactly one of the two
counters is incremented per listed ID. -/
inductive StepOutcome where
  | processed
  | failed
deriving Repr, DecidableEq

/-! ## extractHTMLContent (main.go lines 162-177) -/

/-- Direct translation of extractHTMLContent: empty HTMLBody yields "",
otherwise the first part is consulted and its PartID looked up in
BodyValues; a missing key yields "". -/
def extractHTMLContent (email : Email) : String :=
  match email.htmlBody with
  | [] => ""
  | part :: _ =>
    match email.bodyValues.lookup part.partID with
    | some bodyValue => bodyValue.value
    | none => ""

/-! ## processEmails (main.go lines 68-160) -/

/-- Body of one iteration of the processing loop (main.go lines 107-153):
fetch the email, extract HTML, render, move; the first failing step makes
the iteration count as failed.  Returns the outcome together with the
calls made during the iteration. -/
def processOneEmail (client : EmailClient) (generator : ScreenshotService)
    (srcID dstID emailID : String) : StepOutcome × List Event :=
  match client.getEmails [emailID] with
  | .error _ => (.failed, [.fetch [emailID]])
  | .ok emails =>
    match emails with
    | [] => (.failed, [.fetch [emailID]])
    | email :: _ =>
      if extractHTMLContent email = "" then
        (.failed, [.fetch [emailID]])
      else
        match generator.generateScreenshot emailID (extractHTMLContent email) with
        | .error _ =>
          (.failed, [.fetch [emailID], .render emailID (extractHTMLContent email)])
        | .ok _ =>
          match client.moveEmail emailID srcID dstID with
          | .error _ =>
            (.failed, [.fetch [emailID], .render emailID (extractHTMLContent email),
                       .move emailID srcID dstID])
          | .ok _ =>
            (.processed, [.fetch [emailID], .render emailID (extractHTMLContent email),
                          .move emailID srcID dstID])

/-- Processing loop of main.go lines 106-153, accumulating the processed
and failed counters and concatenating the per-iteration traces. -/
def processLoop (client : EmailClient) (generator : ScreenshotService)
    (srcID dstID : String) : List String → Nat × Nat × List Event
  | [] => (0, 0, [])
  | emailID :: rest =>
    let step := processOneEmail client generator srcID dstID emailID
    let tail := processLoop client generator srcID dstID rest
    match step.1 with
    | .processed => (tail.1 + 1, tail.2.1, step.2 ++ tail.2.2)
    | .failed => (tail.1, tail.2.1 + 1, step.2 ++ tail.2.2)

/-- Translation of processEmails (main.go lines 68-160).  The io.Writer
progress output is not modelled.  The returned trace records every
collaborator call the run makes, including on the fatal (error) paths. -/
def processEmails (client : EmailClient) (generator : ScreenshotService)
    (limit : Int) (dryRun : Bool) : Except String ProcessResult × List Event :=
  match client.findMailboxByName sourceFolder with
  | .error e =>
    (.error ("failed to find source folder " ++ sq ++ sourceFolder ++ sq ++ ": " ++ e),
     [.queryMailbox sourceFolder])
  | .ok sourceMailbox =>
    match client.findMailboxByName archiveFolder with
    | .error e =>
      (.error ("failed to find archive folder " ++ sq ++ archiveFolder ++ sq ++ ": " ++ e),
       [.queryMailbox sourceFolder, .queryMailbox archiveFolder])
    | .ok archiveMailbox =>
      match client.getEmailsInMailbox sourceMailbox.id limit with
      | .error e =>
        (.error ("failed to retrieve emails: " ++ e),
         [.queryMailbox sourceFolder, .queryMailbox archiveFolder,
          .listEmails sourceMailbox.id limit])
      | .ok emailIDs =>
        if emailIDs.length = 0 then
          (.ok ⟨0, 0, 0⟩,
           [.queryMailbox sourceFolder, .queryMailbox archiveFolder,
            .listEmails sourceMailbox.id limit])
        else if dryRun then
          (.ok ⟨emailIDs.length, 0, 0⟩,
           [.queryMailbox sourceFolder, .queryMailbox archiveFolder,
            .listEmails sourceMailbox.id limit])
        else
          (.ok ⟨emailIDs.length,
                (processLoop client generator sourceMailbox.id archiveMailbox.id emailIDs).1,
                (processLoop client generator sourceMailbox.id archiveMailbox.id emailIDs).2.1⟩,
           [.queryMailbox sourceFolder, .queryMailbox archiveFolder,
            .listEmails sourceMailbox.id limit] ++
             (processLoop client generator sourceMailbox.id archiveMailbox.id emailIDs).2.2)

/-! ## Go time.Parse(time.RFC3339) and Format("2006-01-02-15-04-05")

screenshot.go parses its first argument with the RFC3339 layout and
formats the parsed wall-clock fields back to second precision.  Go's
time.Parse first tries a strict RFC3339 fast path and, when that fails,
falls back to the lenient general layout parser; for this layout every
string the fast path accepts the fallback accepts too (with the same
field values), so time.Parse's acceptance is exactly the fallback's.  The
fallback parses: a 4-digit year, literal separators, 2-digit month, day,
minute and second fields, an hour of one or two digits (the layout chunk
15 is read non-fixed by getnum), with ranges checked for month (1-12),
day (against the month and leap year), hour (0-23), minute and second
(0-59); then an optional fractional second — a dot or a comma followed by
a maximal nonempty digit run, as the time package documents for parsing —
and finally Z or a sign with hh:mm whose digits are not range-checked,
ending the string.  Format prints the wall-clock fields as parsed, so
only the six dated fields are retained here. -/

/-- Numeric value of a decimal digit character, none otherwise. -/
def digit (c : Char) : Option Nat :=
  if 48 ≤ c.toNat ∧ c.toNat ≤ 57 then some (c.toNat - 48) else none

/-- Reads exactly two digit characters as a number. -/
def read2 : List Char → Option (Nat × List Char)
  | a :: b :: cs =>
    match digit a, digit b with
    | some x, some y => some (10 * x + y, cs)
    | _, _ => none
  | _ => none

/-- Reads exactly four digit characters as a number. -/
def read4 : List Char → Option (Nat × List Char)
  | a :: b :: c :: d :: cs =>
    match digit a, digit b, digit c, digit d with
    | some w, some x, some y, some z => some (1000 * w + 100 * x + 10 * y + z, cs)
    | _, _, _, _ => none
  | _ => none

/-- Reads one or two digit characters as a number: two when the second
character is a digit, otherwise one (Go getnum with fixed=false, used by
the fallback parser for the hour field of this layout). -/
def read1or2 : List Char → Option (Nat × List Char)
  | a :: b :: cs =>
    match digit a, digit b with
    | some x, some y => some (10 * x + y, cs)
    | some x, none => some (x, b :: cs)
    | none, _ => none
  | [a] =>
    match digit a with
    | some x => some (x, [])
    | none => none
  | [] => none

/-- Consumes one expected literal character. -/
def expectChar (ch : Char) : List Char → Option (List Char)
  | c :: cs => if c = ch then some cs else none
  | [] => none

/-- Drops a leading run of digit characters. -/
def dropDigits : List Char → List Char
  | c :: cs => if (digit c).isSome then dropDigits cs else c :: cs
  | [] => []

/-- Strips an optional fractional-second field: a dot or a comma followed
by at least one digit (the comma is accepted by the fallback parser, per
the time package's documented parsing behaviour).  A separator not
followed by a digit is left in place (and then fails offset validation),
as in Go. -/
def stripFraction (cs : List Char) : List Char :=
  match cs with
  | c :: c2 :: rest =>
    if (c = '.' ∨ c = ',') ∧ (digit c2).isSome then dropDigits rest else cs
  | _ => cs

/-- Validates the timezone suffix as the fallback parser does: Z, or a
sign with hh:mm where the four digits are read but their numeric value is
not range-checked (so +25:00 is accepted). -/
def validOffset : List Char → Bool
  | [c] => c == 'Z'
  | [c, h1, h2, c2, m1, m2] =>
    (c == '+' || c == '-') && c2 == ':' &&
      (digit h1).isSome && (digit h2).isSome &&
      (digit m1).isSome && (digit m2).isSome
  | _ => false

/-- Gregorian leap-year rule used by Go's day-of-month validation. -/
def isLeapYear (y : Nat) : Bool :=
  y % 4 == 0 && (y % 100 != 0 || y % 400 == 0)

/-- Days in a month, as Go validates the day field. -/
def daysIn (month year : Nat) : Nat :=
  if month = 2 then (if isLeapYear year then 29 else 28)
  else if month = 4 ∨ month = 6 ∨ month = 9 ∨ month = 11 then 30
  else 31

/-- Wall-clock fields of a parsed Go time that the second-precision format
depends on. -/
structure GoTime where
  year : Nat
  month : Nat
  day : Nat
  hour : Nat
  minute : Nat
  second : Nat
deriving Repr, DecidableEq

/-- Model of Go time.Parse(time.RFC3339, s): some parsed fields when the
string is accepted (strict fast path or lenient fallback — for this
layout the fallback's acceptance subsumes the fast path's, so this is the
fallback), none otherwise. -/
def parseRFC3339 (s : String) : Option GoTime := do
  let (year, cs) ← read4 s.toList
  let cs ← expectChar '-' cs
  let (month, cs) ← read2 cs
  let cs ← expectChar '-' cs
  let (day, cs) ← read2 cs
  let cs ← expectChar 'T' cs
  let (hour, cs) ← read1or2 cs
  let cs ← expectChar ':' cs
  let (minute, cs) ← read2 cs
  let cs ← expectChar ':' cs
  let (second, cs) ← read2 cs
  let rest := stripFraction cs
  if validOffset rest ∧ 1 ≤ month ∧ month ≤ 12 ∧ 1 ≤ day ∧ day ≤ daysIn month year ∧
      hour ≤ 23 ∧ minute ≤ 59 ∧ second ≤ 59 then
    some ⟨year, month, day, hour, minute, second⟩
  else
    none

/-- Zero-pads to two digits (Go layout fields 01, 02, 15, 04, 05). -/
def pad2 (n : Nat) : String :=
  if n < 10 then "0" ++ toString n else toString n

/-- Zero-pads to four digits (Go layout field 2006). -/
def pad4 (n : Nat) : String :=
  if n < 10 then "000" ++ toString n
  else if n < 100 then "00" ++ toString n
  else if n < 1000 then "0" ++ toString n
  else toString n

/-- Model of t.Format("2006-01-02-15-04-05") on the parsed time. -/
def formatGoTime (t : GoTime) : String :=
  pad4 t.year ++ "-" ++ pad2 t.month ++ "-" ++ pad2 t.day ++ "-" ++
    pad2 t.hour ++ "-" ++ pad2 t.minute ++ "-" ++ pad2 t.second

/-- Model of filepath.Join(dir, file).  Go additionally runs Clean on the
result (so "./screenshots" becomes "screenshots"); that normalisation does
not affect which file the name denotes and is not modelled. -/
def joinPath (dir file : String) : String := dir ++ "/" ++ file

/-! ## screenshot.go -/

/-- Head of the fixed HTML shell that GenerateScreenshot wraps around the
message body (screenshot.go lines 58-78); braces are written as escapes. -/
def htmlShellHead : String :=
  "<!DOCTYPE html>\n<html>\n<head>\n    <meta charset=\"UTF-8\">\n    <style>\n        body \x7b\n            margin: 20px;\n            font-family: -apple-system, BlinkMacSystemFont, \"Segoe UI\", Roboto, \"Helvetica Neue\", Arial, sans-serif;\n            font-size: 14px;\n            line-height: 1.5;\n        \x7d\n        img \x7b\n            max-width: 100%;\n            height: auto;\n        \x7d\n    </style>\n</head>\n<body>\n"

/-- Tail of the fixed HTML shell. -/
def htmlShellTail : String := "\n</body>\n</html>"

/-- Document handed to the rendering engine for a given message body. -/
def fullHTML (htmlContent : String) : String :=
  htmlShellHead ++ htmlContent ++ htmlShellTail

/-- ScreenshotGenerator from screenshot.go: output directory and viewport
dimensions.  The constructor's directory creation is a filesystem effect
outside the per-call behaviour modelled here. -/
structure ScreenshotGenerator where
  outputDir : String
  width : Nat
  height : Nat
deriving Repr, DecidableEq

/-- Filesystem / rendering-engine effects of one GenerateScreenshot call,
in order. -/
inductive ShotEvent where
  | chromedpRun (width height : Nat) (html : String)
  | fileWrite (path : String) (bytes : List Nat)
deriving Repr, DecidableEq

/-- Oracle for the chromedp engine (viewport, document to render, yielding
the captured image bytes or an error) and the file write.  The data-URL
encoding of the document is injective, so the oracle receives the document
itself. -/
structure RenderEnv where
  runChromedp : Nat → Nat → String → Except String (List Nat)
  writeFile : String → List Nat → Except String Unit

/-- Translation of (*ScreenshotGenerator).GenerateScreenshot
(screenshot.go lines 36-101): parse the first argument as RFC3339, derive
the output path from the reformatted time, render, write the file, return
the path.  Also returns the engine/filesystem calls made. -/
def GenerateScreenshot (s : ScreenshotGenerator) (env : RenderEnv)
    (timestamp htmlContent : String) : Except String String × List ShotEvent :=
  match parseRFC3339 timestamp with
  | none => (.error "failed to parse timestamp", [])
  | some t =>
    match env.runChromedp s.width s.height (fullHTML htmlContent) with
    | .error e =>
      (.error ("failed to generate screenshot: " ++ e),
       [.chromedpRun s.width s.height (fullHTML htmlContent)])
    | .ok buf =>
      match env.writeFile (joinPath s.outputDir (formatGoTime t ++ ".png")) buf with
      | .error e =>
        (.error ("failed to write screenshot: " ++ e),
         [.chromedpRun s.width s.height (fullHTML htmlContent),
          .fileWrite (joinPath s.outputDir (formatGoTime t ++ ".png")) buf])
      | .ok _ =>
        (.ok (joinPath s.outputDir (formatGoTime t ++ ".png")),
         [.chromedpRun s.width s.height (fullHTML htmlContent),
          .fileWrite (joinPath s.outputDir (formatGoTime t ++ ".png")) buf])

/-- The concrete generator wired up as the ScreenshotService that
processEmails calls: main.go passes the email ID as the first argument. -/
def screenshotServiceOf (s : ScreenshotGenerator) (env : RenderEnv) : ScreenshotService :=
  ⟨fun firstArg htmlContent => (GenerateScreenshot s env firstArg htmlContent).1⟩

/-! ## jmap.go: FindMailboxByName and MoveEmail

The HTTP transport and JSON decoding are abstracted as server oracles
delivering the already-decoded method responses; transport and decode
failures are the oracle's error case. -/

/-- Server oracle for the Mailbox/query + Mailbox/get pair issued by
FindMailboxByName: the queried name yields the decoded mailbox list of the
Mailbox/get response. -/
structure MailboxServer where
  queryMailboxes : String → Except String (List Mailbox)

/-- Translation of FindMailboxByName (jmap.go lines 176-238): a server
error propagates; an empty decoded list is the not-found error; otherwise
the first mailbox of the list is returned. -/
def FindMailboxByName (server : MailboxServer) (name : String) : Except String Mailbox :=
  match server.queryMailboxes name with
  | .error e => .error e
  | .ok mbs =>
    match mbs with
    | [] => .error ("mailbox " ++ sq ++ name ++ sq ++ " not found")
    | mb :: _ => .ok mb

/-- The Email/set update patch MoveEmail sends: one update entry for the
email, mapping the source-mailbox membership key to null (removal) and the
target-mailbox membership key to true (addition). -/
structure EmailSetRequest where
  emailID : String
  patch : List (String × Option Bool)
deriving Repr, DecidableEq

/-- Decoded first method response of the Email/set call: either a
method-level error object with a type and description, or a set result
with its updated and notUpdated maps (notUpdated values are the raw error
objects, kept as strings since the code only stringifies them). -/
inductive SetResponse where
  | methodError (type description : String)
  | setResult (updated : List String) (notUpdated : List (String × String))
deriving Repr, DecidableEq

/-- Server oracle for Email/set requests. -/
structure SetServer where
  emailSet : EmailSetRequest → Except String SetResponse

/-- The single update request MoveEmail issues (jmap.go lines 354-368). -/
def moveEmailRequest (emailID srcID dstID : String) : EmailSetRequest :=
  ⟨emailID, [("mailboxIds/" ++ srcID, none), ("mailboxIds/" ++ dstID, some true)]⟩

/-- Distinguished error for a read-only credential (jmap.go line 397). -/
def readOnlyKeyMessage : String :=
  "API key has read-only permissions. Please create a new Fastmail API token with read-write permissions for Mail"

/-- Translation of MoveEmail (jmap.go lines 353-426), returning the result
together with the Email/set requests issued (always exactly the one). -/
def MoveEmail (server : SetServer) (emailID srcID dstID : String) :
    Except String Unit × List EmailSetRequest :=
  let req := moveEmailRequest emailID srcID dstID
  let res : Except String Unit :=
    match server.emailSet req with
    | .error e => .error e
    | .ok (.methodError t d) =>
      if t = "accountReadOnly" then .error readOnlyKeyMessage
      else .error ("JMAP error (" ++ t ++ "): " ++ d)
    | .ok (.setResult _ notUpdated) =>
      match notUpdated.lookup emailID with
      | some errData => .error ("failed to move email: " ++ errData)
      | none => .ok ()
  (res, [req])

/-! ## Derived notions used in the statements -/

/-- Outcome of the loop iteration for one email ID. -/
def stepOutcome (client : EmailClient) (generator : ScreenshotService)
    (srcID dstID emailID : String) : StepOutcome :=
  (processOneEmail client generator srcID dstID emailID).1

/-- Collaborator calls made by the loop iteration for one email ID. -/
def stepTrace (client : EmailClient) (generator : ScreenshotService)
    (srcID dstID emailID : String) : List Event :=
  (processOneEmail client generator srcID dstID emailID).2

/-- Calls processEmails makes before any per-message processing: the two
mailbox lookups and the listing call. -/
def preEvents (srcID : String) (limit : Int) : List Event :=
  [.queryMailbox sourceFolder, .queryMailbox archiveFolder, .listEmails srcID limit]

/-- Substring containment, used to state what an error message contains. -/
def containsSub (needle s : String) : Prop := ∃ p q, s = p ++ needle ++ q

/-! ## Concrete fixtures (mirroring the mocks of main_test.go) -/

def mbSrc : Mailbox := ⟨"src-123", sourceFolder, ""⟩
def mbArch : Mailbox := ⟨"arch-456", archiveFolder, ""⟩

def testEmail1 : Email :=
  ⟨"email1", "Test Email 1", "2025-10-24T14:30:00Z",
   [⟨"part1", "text/html"⟩], [("part1", ⟨"<p>hello</p>", false⟩)],
   [("src-123", true)]⟩

def textOnlyEmail : Email :=
  ⟨"email2", "Text Only Email", "2025-10-24T14:35:00Z", [], [],
   [("src-123", true)]⟩

def mockClient : EmailClient :=
  { findMailboxByName := fun name =>
      if name = sourceFolder then .ok mbSrc
      else if name = archiveFolder then .ok mbArch
      else .error "mailbox not found"
    getEmailsInMailbox := fun mailboxID _ =>
      if mailboxID = "src-123" then .ok ["email1", "email2"] else .ok []
    getEmails := fun ids =>
      .ok (ids.filterMap fun i =>
        if i = "email1" then some testEmail1
        else if i = "email2" then some textOnlyEmail else none)
    moveEmail := fun _ _ _ => .ok () }

/-- The mock client with a failing move call. -/
def moveFailClient : EmailClient :=
  { mockClient with moveEmail := fun _ _ _ => .error "move failed" }

/-- A client with no mailboxes at all. -/
def noSrcClient : EmailClient :=
  { mockClient with findMailboxByName := fun _ => .error "mailbox not found" }

/-- A client that only has the source mailbox. -/
def noArchClient : EmailClient :=
  { mockClient with findMailboxByName := fun name =>
      if name = sourceFolder then .ok mbSrc else .error "mailbox not found" }

/-- A client whose listing call fails. -/
def listFailClient : EmailClient :=
  { mockClient with getEmailsInMailbox := fun _ _ => .error "listing failed" }

def mockService : ScreenshotService :=
  ⟨fun firstArg _ => .ok ("screenshots/" ++ firstArg ++ ".png")⟩

/-- The generator as main.go constructs it. -/
def testGenerator : ScreenshotGenerator :=
  ⟨screenshotDir, screenshotWidth, screenshotHeight⟩

/-- A render environment in which the engine and the filesystem succeed
([137, 80, 78, 71] is the PNG magic). -/
def okRenderEnv : RenderEnv :=
  ⟨fun _ _ _ => .ok [137, 80, 78, 71], fun _ _ => .ok ()⟩

def emptyMailboxServer : MailboxServer := ⟨fun _ => .ok []⟩

def twoMailboxServer : MailboxServer := ⟨fun _ => .ok [mbSrc, mbArch]⟩

def readOnlySetServer : SetServer :=
  ⟨fun _ => .ok (.methodError "accountReadOnly" "not permitted")⟩

def notUpdatedSetServer : SetServer :=
  ⟨fun req => .ok (.setResult [] [(req.emailID, "forbidden")])⟩

def okSetServer : SetServer :=
  ⟨fun req => .ok (.setResult [req.emailID] [])⟩

/-- Message exhibiting the naming divergence for claim C2: its ID parses
as an RFC3339 timestamp but differs from its received timestamp. -/
def clashEmail : Email :=
  ⟨"2025-01-01T00:00:00Z", "Clash", "2030-05-05T05:05:05Z",
   [⟨"part1", "text/html"⟩], [("part1", ⟨"<b>x</b>", false⟩)], []⟩

/-- The naming schemes claim C2 asserts, stated from the spec wording: the
artifact is named from the message's received timestamp formatted to
second precision, or is named by the message identifier. -/
def artifactNameSpec (email : Email) (outputDir path : String) : Prop :=
  (∃ t, parseRFC3339 email.receivedAt = some t ∧
        path = joinPath outputDir (formatGoTime t ++ ".png")) ∨
  path = joinPath outputDir (email.id ++ ".png")


/-! ## Infrastructure lemmas about the processing loop -/

theorem processLoop_count_sum (client : EmailClient) (generator : ScreenshotService)
    (srcID dstID : String) (ids : List String) :
    (processLoop client generator srcID dstID ids).1 +
      (processLoop client generator srcID dstID ids).2.1 = ids.length := by
  induction ids with
  | nil => rfl
  | cons id rest ih =>
    simp only [processLoop]
    cases h : (processOneEmail client generator srcID dstID id).1 <;>
      simp [h] <;> omega

theorem processLoop_failed_eq_countP (client : EmailClient) (generator : ScreenshotService)
    (srcID dstID : String) (ids : List String) :
    (processLoop client generator srcID dstID ids).2.1 =
      ids.countP (fun id => stepOutcome client generator srcID dstID id == .failed) := by
  induction ids with
  | nil => rfl
  | cons id rest ih =>
    simp only [processLoop, List.countP_cons]
    cases h : (processOneEmail client generator srcID dstID id).1 <;>
      simp [stepOutcome, h, ih]

theorem mem_processLoop_trace (client : EmailClient) (generator : ScreenshotService)
    (srcID dstID : String) (ids : List String) (ev : Event) :
    ev ∈ (processLoop client generator srcID dstID ids).2.2 ↔
      ∃ id, id ∈ ids ∧ ev ∈ stepTrace client generator srcID dstID id := by
  induction ids with
  | nil => simp [processLoop]
  | cons id rest ih =>
    simp only [processLoop]
    cases h : (processOneEmail client generator srcID dstID id).1 <;>
      simp only [List.mem_append, ih, stepTrace, List.mem_cons] <;>
      aesop

/-- Case analysis for a run of processEmails that returns a result. -/
theorem processEmails_ok_cases (client : EmailClient) (generator : ScreenshotService)
    (limit : Int) (dryRun : Bool) (r : ProcessResult) (evs : List Event)
    (hrun : processEmails client generator limit dryRun = (.ok r, evs)) :
    ∃ src arch ids, client.findMailboxByName sourceFolder = .ok src ∧
      client.findMailboxByName archiveFolder = .ok arch ∧
      client.getEmailsInMailbox src.id limit = .ok ids ∧
      ((ids.length = 0 ∧ r = ⟨0, 0, 0⟩ ∧ evs = preEvents src.id limit) ∨
       (ids.length ≠ 0 ∧ dryRun = true ∧ r = ⟨ids.length, 0, 0⟩ ∧
        evs = preEvents src.id limit) ∨
       (ids.length ≠ 0 ∧ dryRun = false ∧
        r = ⟨ids.length, (processLoop client generator src.id arch.id ids).1,
             (processLoop client generator src.id arch.id ids).2.1⟩ ∧
        evs = preEvents src.id limit ++
              (processLoop client generator src.id arch.id ids).2.2)) := by
  unfold processEmails at hrun
  split at hrun
  next e heq => simp at hrun
  next src hsrc =>
    split at hrun
    next e heq => simp at hrun
    next arch harch =>
      split at hrun
      next e heq => simp at hrun
      next ids hids =>
        refine ⟨src, arch, ids, hsrc, harch, hids, ?_⟩
        split at hrun
        next hlen =>
          simp only [Prod.mk.injEq, Except.ok.injEq] at hrun
          exact Or.inl ⟨hlen, hrun.1.symm, hrun.2.symm⟩
        next hlen =>
          split at hrun
          next hdry =>
            simp only [Prod.mk.injEq, Except.ok.injEq] at hrun
            exact Or.inr (Or.inl ⟨hlen, hdry, hrun.1.symm, hrun.2.symm⟩)
          next hdry =>
            simp only [Prod.mk.injEq, Except.ok.injEq] at hrun
            refine Or.inr (Or.inr ⟨hlen, ?_, hrun.1.symm, hrun.2.symm⟩)
            revert hdry
            cases dryRun <;> simp

theorem processOneEmail_of_noHTML (client : EmailClient) (generator : ScreenshotService)
    (srcID dstID emailID : String) (email : Email) (rest : List Email)
    (hfetch : client.getEmails [emailID] = .ok (email :: rest))
    (hext : extractHTMLContent email = "") :
    processOneEmail client generator srcID dstID emailID = (.failed, [.fetch [emailID]]) := by
  simp [processOneEmail, hfetch, hext]

theorem processOneEmail_moveError (client : EmailClient) (generator : ScreenshotService)
    (srcID dstID emailID : String) (email : Email) (rest : List Email) (path err : String)
    (hfetch : client.getEmails [emailID] = .ok (email :: rest))
    (hne : extractHTMLContent email ≠ "")
    (hgen : generator.generateScreenshot emailID (extractHTMLContent email) = .ok path)
    (hmove : client.moveEmail emailID srcID dstID = .error err) :
    processOneEmail client generator srcID dstID emailID =
      (.failed, [.fetch [emailID], .render emailID (extractHTMLContent email),
                 .move emailID srcID dstID]) := by
  simp [processOneEmail, hfetch, hne, hgen, hmove]

theorem render_mem_stepTrace (client : EmailClient) (generator : ScreenshotService)
    (srcID dstID emailID a h : String)
    (hm : Event.render a h ∈ stepTrace client generator srcID dstID emailID) :
    a = emailID := by
  unfold stepTrace processOneEmail at hm
  iterate 5 (all_goals (try split at hm))
  all_goals simp_all

theorem move_mem_stepTrace (client : EmailClient) (generator : ScreenshotService)
    (srcID dstID emailID a x y : String)
    (hm : Event.move a x y ∈ stepTrace client generator srcID dstID emailID) :
    a = emailID ∧ x = srcID ∧ y = dstID ∧
    ∃ email rest path, client.getEmails [emailID] = .ok (email :: rest) ∧
      extractHTMLContent email ≠ "" ∧
      generator.generateScreenshot emailID (extractHTMLContent email) = .ok path := by
  unfold stepTrace processOneEmail at hm
  iterate 5 (all_goals (try split at hm))
  all_goals simp_all

theorem stepOutcome_processed (client : EmailClient) (generator : ScreenshotService)
    (srcID dstID emailID : String)
    (hp : stepOutcome client generator srcID dstID emailID = .processed) :
    ∃ email rest path, client.getEmails [emailID] = .ok (email :: rest) ∧
      extractHTMLContent email ≠ "" ∧
      generator.generateScreenshot emailID (extractHTMLContent email) = .ok path := by
  unfold stepOutcome processOneEmail at hp
  iterate 5 (all_goals (try split at hp))
  all_goals simp_all

/-! ## Claims -/

/-- Claim C1: every non-dry-run invocation of processEmails that returns a
result (rather than a fatal error) has ProcessedCount + FailedCount =
TotalCount, and TotalCount equals the number of message IDs returned by
the listing call. -/
theorem claim1_counts (client : EmailClient) (generator : ScreenshotService)
    (limit : Int) (r : ProcessResult) (evs : List Event)
    (hrun : processEmails client generator limit false = (.ok r, evs)) :
    r.processedCount + r.failedCount = r.totalCount ∧
    ∃ src ids, client.findMailboxByName sourceFolder = .ok src ∧
      client.getEmailsInMailbox src.id limit = .ok ids ∧
      r.totalCount = ids.length := by
  obtain ⟨src, arch, ids, hsrc, harch, hids, hcase⟩ :=
    processEmails_ok_cases client generator limit false r evs hrun
  rcases hcase with ⟨hlen, hr, _⟩ | ⟨_, hdry, _, _⟩ | ⟨_, _, hr, _⟩
  · subst hr; exact ⟨rfl, src, ids, hsrc, hids, hlen.symm⟩
  · simp at hdry
  · subst hr
    exact ⟨processLoop_count_sum client generator src.id arch.id ids,
           src, ids, hsrc, hids, rfl⟩

/-- Witness for C1 on the mock fixtures: a two-message run with one
success and one failure. -/
theorem claim1_counts_witness :
    (1 : Nat) + 1 = 2 ∧
    ∃ src ids, mockClient.findMailboxByName sourceFolder = .ok src ∧
      mockClient.getEmailsInMailbox src.id 0 = .ok ids ∧
      (2 : Nat) = ids.length :=
  claim1_counts mockClient mockService 0 ⟨2, 1, 1⟩
    [.queryMailbox sourceFolder, .queryMailbox archiveFolder,
     .listEmails "src-123" 0, .fetch ["email1"],
     .render "email1" "<p>hello</p>", .move "email1" "src-123" "arch-456",
     .fetch ["email2"]] (by rfl)

/-- Claim C7: FindMailboxByName fails with the not-found error exactly
when the server answers with an empty mailbox list, and otherwise returns
the first mailbox of the list, even when several match. -/
theorem claim7_findMailboxByName (server : MailboxServer) (name : String)
    (mbs : List Mailbox) (hq : server.queryMailboxes name = .ok mbs) :
    (FindMailboxByName server name =
        .error ("mailbox " ++ sq ++ name ++ sq ++ " not found") ↔ mbs = []) ∧
    ∀ mb rest, mbs = mb :: rest → FindMailboxByName server name = .ok mb := by
  constructor
  · constructor
    · intro h
      rcases mbs with _ | ⟨mb, rest⟩
      · rfl
      · simp [FindMailboxByName, hq] at h
    · rintro rfl
      simp [FindMailboxByName, hq]
  · rintro mb rest rfl
    simp [FindMailboxByName, hq]

/-- Witness for C7: the empty server answer gives not-found, a two-element
answer gives its first mailbox. -/
theorem claim7_witness :
    (FindMailboxByName emptyMailboxServer "_aar" =
        .error ("mailbox " ++ sq ++ "_aar" ++ sq ++ " not found") ↔
      ([] : List Mailbox) = []) ∧
    FindMailboxByName twoMailboxServer "_aar" = .ok mbSrc :=
  ⟨(claim7_findMailboxByName emptyMailboxServer "_aar" [] rfl).1,
   (claim7_findMailboxByName twoMailboxServer "_aar" [mbSrc, mbArch] rfl).2
     mbSrc [mbArch] rfl⟩

/-- Claim C8: MoveEmail issues the single update request that removes the
source-mailbox membership and adds the target-mailbox membership, returns
an error whenever the server reports the email as not updated, returns the
distinguished read-only-credential error when the server error type is
accountReadOnly, and returns success otherwise. -/
theorem claim8_moveEmail (server : SetServer) (emailID srcID dstID : String) :
    (MoveEmail server emailID srcID dstID).2 =
      [⟨emailID, [("mailboxIds/" ++ srcID, none), ("mailboxIds/" ++ dstID, some true)]⟩] ∧
    (∀ d, server.emailSet (moveEmailRequest emailID srcID dstID) =
        .ok (.methodError "accountReadOnly" d) →
      (MoveEmail server emailID srcID dstID).1 = .error readOnlyKeyMessage) ∧
    (∀ upd nupd errData,
      server.emailSet (moveEmailRequest emailID srcID dstID) = .ok (.setResult upd nupd) →
      nupd.lookup emailID = some errData →
      (MoveEmail server emailID srcID dstID).1 =
        .error ("failed to move email: " ++ errData)) ∧
    (∀ upd nupd,
      server.emailSet (moveEmailRequest emailID srcID dstID) = .ok (.setResult upd nupd) →
      nupd.lookup emailID = none →
      (MoveEmail server emailID srcID dstID).1 = .ok ()) := by
  refine ⟨rfl, ?_, ?_, ?_⟩
  · intro d h
    simp [MoveEmail, h]
  · intro upd nupd errData h hl
    simp [MoveEmail, h, hl]
  · intro upd nupd h hl
    simp [MoveEmail, h, hl]

/-- Witness for C8 on three concrete servers: read-only error, notUpdated
error, and success, plus the request shape. -/
theorem claim8_witness :
    (MoveEmail okSetServer "email1" "src-123" "arch-456").2 =
      [⟨"email1", [("mailboxIds/" ++ "src-123", none),
                   ("mailboxIds/" ++ "arch-456", some true)]⟩] ∧
    (MoveEmail readOnlySetServer "email1" "src-123" "arch-456").1 =
      .error readOnlyKeyMessage ∧
    (MoveEmail notUpdatedSetServer "email1" "src-123" "arch-456").1 =
      .error ("failed to move email: " ++ "forbidden") ∧
    (MoveEmail okSetServer "email1" "src-123" "arch-456").1 = .ok () :=
  ⟨(claim8_moveEmail okSetServer "email1" "src-123" "arch-456").1,
   (claim8_moveEmail readOnlySetServer "email1" "src-123" "arch-456").2.1
     "not permitted" rfl,
   (claim8_moveEmail notUpdatedSetServer "email1" "src-123" "arch-456").2.2.1
     [] [("email1", "forbidden")] "forbidden" rfl rfl,
   (claim8_moveEmail okSetServer "email1" "src-123" "arch-456").2.2.2
     ["email1"] [] rfl rfl⟩

/-- Claim C10: extractHTMLContent consults only the first HTML body part:
it returns the decoded content mapped to the first part when present, and
returns the empty string both when there is no HTML body part and when the
first part's PartID is missing from the body-values map; the tail of the
part list never influences the result. -/
theorem claim10_extract_first_part (email : Email) :
    (email.htmlBody = [] → extractHTMLContent email = "") ∧
    (∀ part rest, email.htmlBody = part :: rest →
      (∀ bv, email.bodyValues.lookup part.partID = some bv →
        extractHTMLContent email = bv.value) ∧
      (email.bodyValues.lookup part.partID = none →
        extractHTMLContent email = "")) ∧
    (∀ part rest rest2,
      extractHTMLContent ⟨email.id, email.subject, email.receivedAt,
        part :: rest, email.bodyValues, email.mailboxIds⟩ =
      extractHTMLContent ⟨email.id, email.subject, email.receivedAt,
        part :: rest2, email.bodyValues, email.mailboxIds⟩) := by
  refine ⟨?_, ?_, ?_⟩
  · intro h
    simp [extractHTMLContent, h]
  · intro part rest h
    constructor
    · intro bv hbv
      simp [extractHTMLContent, h, hbv]
    · intro hn
      simp [extractHTMLContent, h, hn]
  · intro part rest rest2
    rfl

/-- Witness for C10 on the fixtures: present mapping, and no parts. -/
theorem claim10_witness :
    extractHTMLContent testEmail1 = "<p>hello</p>" ∧
    extractHTMLContent textOnlyEmail = "" :=
  ⟨((claim10_extract_first_part testEmail1).2.1 ⟨"part1", "text/html"⟩ [] rfl).1
     ⟨"<p>hello</p>", false⟩ rfl,
   (claim10_extract_first_part textOnlyEmail).1 rfl⟩

/-- Claim C3: a message whose fetched record has no HTML body part (or
whose extracted HTML content is empty) is never rendered — no
GenerateScreenshot call with its ID occurs — and every listed occurrence
of it is counted in the failed counter. -/
theorem claim3_no_html_failed (client : EmailClient) (generator : ScreenshotService)
    (limit : Int) (r : ProcessResult) (evs : List Event)
    (emailID : String) (email : Email) (rest : List Email)
    (hrun : processEmails client generator limit false = (.ok r, evs))
    (hfetch : client.getEmails [emailID] = .ok (email :: rest))
    (hext : extractHTMLContent email = "") :
    (∀ html, Event.render emailID html ∉ evs) ∧
    ∃ src ids, client.findMailboxByName sourceFolder = .ok src ∧
      client.getEmailsInMailbox src.id limit = .ok ids ∧
      ids.countP (fun i => i == emailID) ≤ r.failedCount := by
  obtain ⟨src, arch, ids, hsrc, harch, hids, hcase⟩ :=
    processEmails_ok_cases client generator limit false r evs hrun
  rcases hcase with ⟨hlen, hr, hevs⟩ | ⟨_, hdry, _, _⟩ | ⟨_, _, hr, hevs⟩
  · subst hr; subst hevs
    obtain rfl := List.length_eq_zero.mp hlen
    exact ⟨fun html => by simp [preEvents], src, [], hsrc, hids, by simp⟩
  · simp at hdry
  · subst hr; subst hevs
    have hstep := processOneEmail_of_noHTML client generator src.id arch.id
      emailID email rest hfetch hext
    refine ⟨?_, src, ids, hsrc, hids, ?_⟩
    · intro html hmem
      rcases List.mem_append.mp hmem with hpre | hloop
      · simp [preEvents] at hpre
      · obtain ⟨id, hid, htr⟩ :=
          (mem_processLoop_trace client generator src.id arch.id ids _).mp hloop
        obtain rfl := render_mem_stepTrace client generator src.id arch.id id
          emailID html htr
        simp [stepTrace, hstep] at htr
    · rw [processLoop_failed_eq_countP]
      apply List.countP_mono_left
      intro i hi hb
      obtain rfl : i = emailID := by simpa using hb
      simp [stepOutcome, hstep]

/-- Witness for C3: the text-only message of the mock run is not rendered
and its one listed occurrence is counted as failed. -/
theorem claim3_witness :
    (∀ html, Event.render "email2" html ∉
      [Event.queryMailbox sourceFolder, Event.queryMailbox archiveFolder,
       Event.listEmails "src-123" 0, Event.fetch ["email1"],
       Event.render "email1" "<p>hello</p>",
       Event.move "email1" "src-123" "arch-456", Event.fetch ["email2"]]) ∧
    ∃ src ids, mockClient.findMailboxByName sourceFolder = .ok src ∧
      mockClient.getEmailsInMailbox src.id 0 = .ok ids ∧
      ids.countP (fun i => i == "email2") ≤ (1 : Nat) :=
  claim3_no_html_failed mockClient mockService 0 ⟨2, 1, 1⟩
    [.queryMailbox sourceFolder, .queryMailbox archiveFolder,
     .listEmails "src-123" 0, .fetch ["email1"],
     .render "email1" "<p>hello</p>", .move "email1" "src-123" "arch-456",
     .fetch ["email2"]] "email2" textOnlyEmail [] (by rfl) (by rfl) rfl

/-- Claim C4: a message whose render succeeds but whose move fails is
counted as failed (not processed); the render call for it is in the run's
trace, and a successful GenerateScreenshot call performs exactly the
engine run followed by one write of the returned path — the event
vocabulary has no deletion or rollback, so the artifact file stays. -/
theorem claim4_move_failure (client : EmailClient) (generator : ScreenshotService)
    (limit : Int) (r : ProcessResult) (evs : List Event)
    (emailID : String) (email : Email) (rest : List Email) (path err : String)
    (src arch : Mailbox) (ids : List String)
    (hrun : processEmails client generator limit false = (.ok r, evs))
    (hsrc : client.findMailboxByName sourceFolder = .ok src)
    (harch : client.findMailboxByName archiveFolder = .ok arch)
    (hids : client.getEmailsInMailbox src.id limit = .ok ids)
    (hmem : emailID ∈ ids)
    (hfetch : client.getEmails [emailID] = .ok (email :: rest))
    (hne : extractHTMLContent email ≠ "")
    (hgen : generator.generateScreenshot emailID (extractHTMLContent email) = .ok path)
    (hmove : client.moveEmail emailID src.id arch.id = .error err) :
    stepOutcome client generator src.id arch.id emailID = .failed ∧
    Event.render emailID (extractHTMLContent email) ∈ evs ∧
    ids.countP (fun i => i == emailID) ≤ r.failedCount ∧
    (∀ g env ts htmlC p sevs,
      GenerateScreenshot g env ts htmlC = (.ok p, sevs) →
      ∃ bytes, sevs = [.chromedpRun g.width g.height (fullHTML htmlC),
                       .fileWrite p bytes]) := by
  obtain ⟨src2, arch2, ids2, hsrc2, harch2, hids2, hcase⟩ :=
    processEmails_ok_cases client generator limit false r evs hrun
  rw [hsrc] at hsrc2
  cases hsrc2
  rw [harch] at harch2
  cases harch2
  rw [hids] at hids2
  cases hids2
  have hwrite : ∀ g env ts htmlC p sevs,
      GenerateScreenshot g env ts htmlC = (.ok p, sevs) →
      ∃ bytes, sevs = [.chromedpRun g.width g.height (fullHTML htmlC),
                       .fileWrite p bytes] := by
    intro g env ts htmlC p sevs hG
    unfold GenerateScreenshot at hG
    iterate 3 (all_goals (try split at hG))
    all_goals try (exfalso; simp at hG; done)
    all_goals simp only [Prod.mk.injEq, Except.ok.injEq] at hG
    all_goals
      obtain ⟨h1, h2⟩ := hG
    all_goals subst h1
    all_goals exact ⟨_, h2.symm⟩
  have hstep := processOneEmail_moveError client generator src.id arch.id
    emailID email rest path err hfetch hne hgen hmove
  rcases hcase with ⟨hlen, hr, hevs⟩ | ⟨_, hdry, _, _⟩ | ⟨_, _, hr, hevs⟩
  · obtain rfl := List.length_eq_zero.mp hlen
    simp at hmem
  · simp at hdry
  · subst hr; subst hevs
    refine ⟨by simp [stepOutcome, hstep], ?_, ?_, hwrite⟩
    · apply List.mem_append.mpr
      right
      apply (mem_processLoop_trace client generator src.id arch.id ids _).mpr
      exact ⟨emailID, hmem, by simp [stepTrace, hstep]⟩
    · rw [processLoop_failed_eq_countP]
      apply List.countP_mono_left
      intro i hi hb
      obtain rfl : i = emailID := by simpa using hb
      simp [stepOutcome, hstep]

/-- Witness for C4: the mock run with a failing move counts the rendered
message as failed while its render call is in the trace. -/
theorem claim4_witness :
    stepOutcome moveFailClient mockService "src-123" "arch-456" "email1" = .failed ∧
    Event.render "email1" (extractHTMLContent testEmail1) ∈
      [Event.queryMailbox sourceFolder, Event.queryMailbox archiveFolder,
       Event.listEmails "src-123" 0, Event.fetch ["email1"],
       Event.render "email1" "<p>hello</p>",
       Event.move "email1" "src-123" "arch-456", Event.fetch ["email2"]] ∧
    List.countP (fun i => i == "email1") ["email1", "email2"] ≤ (2 : Nat) ∧
    (∀ g env ts htmlC p sevs,
      GenerateScreenshot g env ts htmlC = (.ok p, sevs) →
      ∃ bytes, sevs = [.chromedpRun g.width g.height (fullHTML htmlC),
                       .fileWrite p bytes]) :=
  claim4_move_failure moveFailClient mockService 0 ⟨2, 0, 2⟩
    [.queryMailbox sourceFolder, .queryMailbox archiveFolder,
     .listEmails "src-123" 0, .fetch ["email1"],
     .render "email1" "<p>hello</p>", .move "email1" "src-123" "arch-456",
     .fetch ["email2"]]
    "email1" testEmail1 [] "screenshots/email1.png" "move failed"
    mbSrc mbArch ["email1", "email2"]
    (by rfl) (by rfl) (by rfl) (by rfl) (by simp) (by rfl) (by decide) (by rfl) (by rfl)

/-- Claim C5: in dry-run mode the returned result always has
ProcessedCount = 0, and the run's trace contains no GenerateScreenshot
call and no MoveEmail call. -/
theorem claim5_dryRun (client : EmailClient) (generator : ScreenshotService)
    (limit : Int) (out : Except String ProcessResult) (evs : List Event)
    (hrun : processEmails client generator limit true = (out, evs)) :
    (∀ r, out = .ok r → r.processedCount = 0) ∧
    (∀ a h, Event.render a h ∉ evs) ∧
    (∀ a x y, Event.move a x y ∉ evs) := by
  unfold processEmails at hrun
  iterate 5 (all_goals (try split at hrun))
  all_goals (injection hrun with h1 h2; subst h1; subst h2)
  all_goals try (exfalso; simp_all; done)
  all_goals
    refine ⟨?_, ?_, ?_⟩
    · intro r hr
      first
        | (injection hr with h; subst h; rfl)
        | simp at hr
    · intro a h hmem
      simp at hmem
    · intro a x y hmem
      simp at hmem

/-- Witness for C5: the mock dry run lists two messages, processes zero,
and its trace has no render and no move call. -/
theorem claim5_witness :
    (∀ r, (Except.ok ⟨2, 0, 0⟩ : Except String ProcessResult) = .ok r →
      r.processedCount = 0) ∧
    (∀ a h, Event.render a h ∉
      [Event.queryMailbox sourceFolder, Event.queryMailbox archiveFolder,
       Event.listEmails "src-123" 0]) ∧
    (∀ a x y, Event.move a x y ∉
      [Event.queryMailbox sourceFolder, Event.queryMailbox archiveFolder,
       Event.listEmails "src-123" 0]) :=
  claim5_dryRun mockClient mockService 0 (.ok ⟨2, 0, 0⟩)
    [.queryMailbox sourceFolder, .queryMailbox archiveFolder,
     .listEmails "src-123" 0] (by rfl)

/-- Substring fact for the source-folder error message. -/
theorem containsSub_source_msg (t : String) :
    containsSub "source folder" ("failed to find source folder " ++ t) := by
  refine ⟨"failed to find ", " " ++ t, ?_⟩
  have h : ("failed to find source folder " : String) =
      "failed to find " ++ "source folder" ++ " " := rfl
  rw [h]
  exact String.append_assoc _ _ _

/-- Claim C6: a failing source-folder resolution makes processEmails
return a fatal error containing "source folder", with only that one
mailbox query in the trace — so no listing, fetch, render, or move was
attempted; a failing archive-folder resolution or a failing listing
likewise aborts with a trace containing no fetch, render, or move call. -/
theorem claim6_fatal_aborts (client : EmailClient) (generator : ScreenshotService)
    (limit : Int) (dryRun : Bool) :
    (∀ e, client.findMailboxByName sourceFolder = .error e →
      ∃ msg, processEmails client generator limit dryRun =
          (.error msg, [.queryMailbox sourceFolder]) ∧
        containsSub "source folder" msg) ∧
    (∀ src e, client.findMailboxByName sourceFolder = .ok src →
      client.findMailboxByName archiveFolder = .error e →
      processEmails client generator limit dryRun =
        (.error ("failed to find archive folder " ++ sq ++ archiveFolder ++
                 sq ++ ": " ++ e),
         [.queryMailbox sourceFolder, .queryMailbox archiveFolder])) ∧
    (∀ src arch e, client.findMailboxByName sourceFolder = .ok src →
      client.findMailboxByName archiveFolder = .ok arch →
      client.getEmailsInMailbox src.id limit = .error e →
      processEmails client generator limit dryRun =
        (.error ("failed to retrieve emails: " ++ e), preEvents src.id limit)) := by
  refine ⟨?_, ?_, ?_⟩
  · intro e h
    refine ⟨"failed to find source folder " ++
        (sq ++ (sourceFolder ++ (sq ++ (": " ++ e)))), ?_, containsSub_source_msg _⟩
    simp [processEmails, h, String.append_assoc]
  · intro src e h1 h2
    simp [processEmails, h1, h2]
  · intro src arch e h1 h2 h3
    simp [processEmails, preEvents, h1, h2, h3]

/-- Witness for C6 on three failing clients: missing source folder,
missing archive folder, failing listing. -/
theorem claim6_witness :
    (∃ msg, processEmails noSrcClient mockService 0 false =
        (.error msg, [.queryMailbox sourceFolder]) ∧
      containsSub "source folder" msg) ∧
    processEmails noArchClient mockService 0 false =
      (.error ("failed to find archive folder " ++ sq ++ archiveFolder ++
               sq ++ ": " ++ "mailbox not found"),
       [.queryMailbox sourceFolder, .queryMailbox archiveFolder]) ∧
    processEmails listFailClient mockService 0 false =
      (.error ("failed to retrieve emails: " ++ "listing failed"),
       preEvents mbSrc.id 0) :=
  ⟨(claim6_fatal_aborts noSrcClient mockService 0 false).1 "mailbox not found" rfl,
   (claim6_fatal_aborts noArchClient mockService 0 false).2.1 mbSrc
     "mailbox not found" rfl rfl,
   (claim6_fatal_aborts listFailClient mockService 0 false).2.2 mbSrc mbArch
     "listing failed" rfl rfl rfl⟩

/-- Claim C9: GenerateScreenshot returns an error and writes no file for
every first argument that Go's time.Parse with the RFC3339 layout rejects
(parseRFC3339 models its full acceptance: the strict fast path together
with the lenient fallback's comma fractions, unchecked zone offsets and
one-digit hours); composed with processEmails — which passes the message
ID as that argument — a message whose ID is not accepted is counted as
failed in every listed occurrence and is never moved to the archive. -/
theorem claim9_invalid_id (s : ScreenshotGenerator) (env : RenderEnv)
    (client : EmailClient) (limit : Int) (r : ProcessResult) (evs : List Event)
    (emailID : String)
    (hpar : parseRFC3339 emailID = none) :
    (∀ htmlContent, GenerateScreenshot s env emailID htmlContent =
        (.error "failed to parse timestamp", [])) ∧
    (processEmails client (screenshotServiceOf s env) limit false = (.ok r, evs) →
      (∀ x y, Event.move emailID x y ∉ evs) ∧
      ∃ src ids, client.findMailboxByName sourceFolder = .ok src ∧
        client.getEmailsInMailbox src.id limit = .ok ids ∧
        ids.countP (fun i => i == emailID) ≤ r.failedCount) := by
  have hgen : ∀ htmlContent,
      (screenshotServiceOf s env).generateScreenshot emailID htmlContent =
        .error "failed to parse timestamp" := by
    intro htmlContent
    simp [screenshotServiceOf, GenerateScreenshot, hpar]
  constructor
  · intro htmlContent
    simp [GenerateScreenshot, hpar]
  · intro hrun
    obtain ⟨src, arch, ids, hsrc, harch, hids, hcase⟩ :=
      processEmails_ok_cases client (screenshotServiceOf s env) limit false r evs hrun
    have hfail : stepOutcome client (screenshotServiceOf s env) src.id arch.id
        emailID = .failed := by
      cases ho : stepOutcome client (screenshotServiceOf s env) src.id arch.id
          emailID with
      | failed => rfl
      | processed =>
        obtain ⟨email, rest2, path, hf, hne, hok⟩ :=
          stepOutcome_processed client (screenshotServiceOf s env) src.id arch.id
            emailID ho
        rw [hgen] at hok
        simp at hok
    rcases hcase with ⟨hlen, hr, hevs⟩ | ⟨_, hdry, _, _⟩ | ⟨_, _, hr, hevs⟩
    · subst hr; subst hevs
      obtain rfl := List.length_eq_zero.mp hlen
      exact ⟨fun x y => by simp [preEvents], src, [], hsrc, hids, by simp⟩
    · simp at hdry
    · subst hr; subst hevs
      refine ⟨?_, src, ids, hsrc, hids, ?_⟩
      · intro x y hmem
        rcases List.mem_append.mp hmem with hpre | hloop
        · simp [preEvents] at hpre
        · obtain ⟨id, hid, htr⟩ :=
            (mem_processLoop_trace client (screenshotServiceOf s env) src.id
              arch.id ids _).mp hloop
          obtain ⟨rfl, hx, hy, email, rest2, path, hf, hne, hok⟩ :=
            move_mem_stepTrace client (screenshotServiceOf s env) src.id arch.id
              id emailID x y htr
          rw [hgen] at hok
          simp at hok
      · rw [processLoop_failed_eq_countP]
        apply List.countP_mono_left
        intro i hi hb
        obtain rfl : i = emailID := by simpa using hb
        simp [hfail]

/-- Witness for C9: with the concrete generator wired in, the mock run
fails both messages because their IDs are not RFC3339 timestamps, and no
move call occurs for the first one. -/
theorem claim9_witness :
    (∀ htmlContent, GenerateScreenshot testGenerator okRenderEnv "email1"
        htmlContent = (.error "failed to parse timestamp", [])) ∧
    ((∀ x y, Event.move "email1" x y ∉
        [Event.queryMailbox sourceFolder, Event.queryMailbox archiveFolder,
         Event.listEmails "src-123" 0, Event.fetch ["email1"],
         Event.render "email1" "<p>hello</p>", Event.fetch ["email2"]]) ∧
      ∃ src ids, mockClient.findMailboxByName sourceFolder = .ok src ∧
        mockClient.getEmailsInMailbox src.id 0 = .ok ids ∧
        ids.countP (fun i => i == "email1") ≤ (2 : Nat)) :=
  have h := claim9_invalid_id testGenerator okRenderEnv mockClient 0 ⟨2, 0, 2⟩
    [.queryMailbox sourceFolder, .queryMailbox archiveFolder,
     .listEmails "src-123" 0, .fetch ["email1"],
     .render "email1" "<p>hello</p>", .fetch ["email2"]] "email1" (by rfl)
  ⟨h.1, h.2 (by rfl)⟩

/-- Claim C2 divergence, evaluated at the failing input: GenerateScreenshot,
invoked as processEmails invokes it (message ID as first argument), succeeds
on clashEmail and returns a path obtained by reformatting the ID parsed as a
timestamp — matching neither the received-timestamp naming scheme nor the
identifier naming scheme that the claim asserts. -/
theorem claim2_naming_divergence :
    (GenerateScreenshot testGenerator okRenderEnv clashEmail.id
        (extractHTMLContent clashEmail)).1 =
      .ok "./screenshots/2025-01-01-00-00-00.png" ∧
    ¬ artifactNameSpec clashEmail screenshotDir
        "./screenshots/2025-01-01-00-00-00.png" := by
  constructor
  · rfl
  · rintro (⟨t, ht, hpath⟩ | hpath)
    · have h0 : parseRFC3339 clashEmail.receivedAt =
          some ⟨2030, 5, 5, 5, 5, 5⟩ := by rfl
      rw [h0] at ht
      injection ht with h
      subst h
      exact absurd hpath (by decide)
    · exact absurd hpath (by decide)

end Aar
